import Mathlib

/-!
Verification of invenio-files-rest against its specification.

This file gives a shallow embedding, in Lean 4, of the parts of the
invenio-files-rest code base that the checked claims are about:

* `invenio_files_rest/utils.py` — `check_sizelimit` / `check_size`;
* `invenio_files_rest/storage/legacy.py` — `FileStorage._write_stream` and
  `PyFSFileStorage.save` / `PyFSFileStorage.delete`;
* `invenio_files_rest/storage/pyfs.py` — the `FS` local-filesystem
  abstraction (`_get_full_path`);
* `invenio_files_rest/models.py` — `Location.get_default`,
  `FileInstance.verify_checksum`, `ObjectVersion.create` / `get` /
  `delete` / `copy` / `restore` / `set_contents` / `set_location`,
  `Bucket.snapshot`;
* `invenio_files_rest/views.py` — the size-limit pre-check of
  `ObjectResource.put`;
* the `MultipartObject` initialisation, which is absent from the given
  source tree (only its callers in `tasks.py` are present) and is therefore
  modelled from the specification.

Machine integers in the source are unbounded Python integers, so sizes are
modelled by `Nat` (and `Int` where the computed value can become negative).
Python exceptions are modelled with `Option`/`Except` error values.
-/

/-! ## Errors (`invenio_files_rest/errors.py`)

The errors module itself is not in the source tree (it is imported by
`utils.py`, `models.py` and `storage/*.py`); the exception classes carry
only a human-readable description, which is all the claims refer to. -/

/-- Modelled from the spec: the exception kinds of `invenio_files_rest.errors`
that the size checks in `utils.py` raise.  `FileSizeError` and
`UnexpectedFileSizeError` each carry a `description` string. -/
inductive SizeCheckError where
  | fileSizeError (description : String)
  | unexpectedFileSizeError (description : String)
deriving DecidableEq, Repr

/-- Size limit argument of `check_sizelimit` (`utils.py:65-84`).  The limit is
either a plain Python `int`, or a `FileSizeLimit` object
(`invenio_files_rest.limiters.FileSizeLimit`, compared like its integer
`limit` and carrying a `reason` string); the code distinguishes the two with
`isinstance(size_limit, int)`. -/
inductive SizeLimit where
  | intLimit (limit : Nat)
  | limitObj (limit : Nat) (reason : String)
deriving DecidableEq, Repr

/-- Numeric value of a size limit (both variants compare by their integer). -/
def SizeLimit.value : SizeLimit → Nat
  | .intLimit l => l
  | .limitObj l _ => l

/-- Description used by `check_sizelimit` when raising `FileSizeError`:
`'File size limit exceeded.' if isinstance(size_limit, int) else
size_limit.reason` (`utils.py:77-78`). -/
def SizeLimit.desc : SizeLimit → String
  | .intLimit _ => "File size limit exceeded."
  | .limitObj _ reason => reason

/-- Embedding of `check_sizelimit(size_limit, bytes_written, total_size)`
(`utils.py:65-84`).  Returns `some e` when the Python function raises `e`:
first `FileSizeError` when a limit is set and `bytes_written` exceeds it,
then `UnexpectedFileSizeError('File is bigger than expected.')` when a total
size is declared and `bytes_written` exceeds it. -/
def check_sizelimit (size_limit : Option SizeLimit) (bytes_written : Nat)
    (total_size : Option Nat) : Option SizeCheckError :=
  match size_limit with
  | some l =>
    if bytes_written > l.value then some (.fileSizeError l.desc)
    else
      match total_size with
      | some t =>
        if bytes_written > t then
          some (.unexpectedFileSizeError "File is bigger than expected.")
        else none
      | none => none
  | none =>
    match total_size with
    | some t =>
      if bytes_written > t then
        some (.unexpectedFileSizeError "File is bigger than expected.")
      else none
    | none => none

/-- Embedding of `check_size(bytes_written, total_size)` (`utils.py:87-97`).
The Python guard is `if total_size and bytes_written < total_size`, so a
`total_size` of `None` — and, by falsiness, `0` — skips the check. -/
def check_size (bytes_written : Nat) (total_size : Option Nat) :
    Option SizeCheckError :=
  match total_size with
  | some t =>
    if t ≠ 0 ∧ bytes_written < t then
      some (.unexpectedFileSizeError "File is smaller than expected.")
    else none
  | none => none

/-! ## Stream writing (`storage/legacy.py` `FileStorage._write_stream`)

The incoming stream is modelled as the list of the sizes of the non-empty
chunks that successive `read(chunk_size)` calls return; a `read` after the
last chunk returns the empty (falsy) chunk, ending the loop.  The message
digest is irrelevant to the claims and is abstracted away; the function
returns the number of bytes written. -/

/-- Loop of `_write_stream` (`legacy.py:179-200`): at the top of each
iteration `check_sizelimit` runs on the bytes written so far, then a chunk is
read; an empty read breaks the loop and `check_size` runs on the total. -/
def writeStreamGo (size_limit : Option SizeLimit) (size : Option Nat) :
    List Nat → Nat → Except SizeCheckError Nat
  | chunks, bytes_written =>
    match check_sizelimit size_limit bytes_written size with
    | some e => .error e
    | none =>
      match chunks with
      | [] =>
        match check_size bytes_written size with
        | some e => .error e
        | none => .ok bytes_written
      | c :: rest => writeStreamGo size_limit size rest (bytes_written + c)

/-- Embedding of `FileStorage._write_stream(src, dst, size, size_limit, ...)`
(`legacy.py:163-203`), returning the bytes written or the raised error. -/
def writeStream (chunks : List Nat) (size_limit : Option SizeLimit)
    (size : Option Nat) : Except SizeCheckError Nat :=
  writeStreamGo size_limit size chunks 0

/-! ## Local file storage (`storage/legacy.py` `PyFSFileStorage`)

`PyFSFileStorage` stores one blob at `<dir>/<name>` where `<dir>` is assumed
to contain only that blob.  The filesystem state relevant to the claims is
whether the blob file and its containing directory exist. -/

/-- State of the blob file and its containing directory on disk. -/
structure LocalFS where
  fileExists : Bool
  dirExists : Bool
deriving DecidableEq, Repr

/-- Opening the blob for writing (`PyFSFileStorage.open` with mode `'wb'`,
`legacy.py:236-242`): `_get_fs` creates the directory (`create_dir=True`) and
`open('wb')` creates (or truncates) the file. -/
def pyfsOpenWrite (_fs : LocalFS) : LocalFS :=
  { fileExists := true, dirExists := true }

/-- Embedding of `PyFSFileStorage.delete` (`legacy.py:244-255`): remove the
file if it exists, then, when `clean_dir` is set, remove the containing
directory (assumed to hold only this file). -/
def pyfsDelete (clean_dir : Bool) (fs : LocalFS) : LocalFS :=
  { fileExists := false, dirExists := if clean_dir then false else fs.dirExists }

/-- Embedding of `PyFSFileStorage.save` (`legacy.py:280-298`, identically
structured in `storage/pyfs.py:243-271`): open the blob for writing, run
`_write_stream`; on success return `(self.fileurl, bytes_written, checksum)`;
on any exception close the stream, call `self.delete()` and re-raise.  The
outcome of `_write_stream` — which may fail with a size-limit violation, an
unexpected-size violation, a storage write failure or a stream read error —
is passed in as `write_result`. -/
def pyfsSave (clean_dir : Bool) (fs : LocalFS) (fileurl : String)
    (write_result : Except SizeCheckError (Nat × String)) :
    LocalFS × Except SizeCheckError (String × Nat × String) :=
  let fs1 := pyfsOpenWrite fs
  match write_result with
  | .ok (bytes_written, checksum) => (fs1, .ok (fileurl, bytes_written, checksum))
  | .error e => (pyfsDelete clean_dir fs1, .error e)

/-! ## Fixity checking (`models.py` `FileInstance.verify_checksum`) -/

/-- Fields of `FileInstance` (`models.py:362-466`) relevant to fixity
checking.  `checksum` is nullable; `last_check_at` is the (nullable)
timestamp of the last check, modelled as an abstract instant. -/
structure FileFixity where
  checksum : Option String
  last_check : Bool
  last_check_at : Option Nat
deriving DecidableEq, Repr

/-- Embedding of `FileInstance.verify_checksum` (`models.py:459-466`): the
storage backend recomputes the blob's checksum (`real_checksum`, abstracted
as an input since the storage classes live behind the factory), then
`last_check = (self.checksum == real_checksum)` and `last_check_at = now`;
the stored `checksum` column is not written.  Returns the updated row and
the returned boolean. -/
def verifyChecksum (f : FileFixity) (real_checksum : String) (now : Nat) :
    FileFixity × Bool :=
  let result := f.checksum = some real_checksum
  ({ f with last_check := result, last_check_at := some now }, result)

/-! ## Default location (`models.py` `Location.get_default`) -/

/-- Fields of `Location` (`models.py:97-151`) relevant to default lookup. -/
structure LocationRec where
  name : String
  isDefault : Bool
deriving DecidableEq, Repr

/-- Embedding of `Location.get_default` (`models.py:136-142`):
`query.filter_by(default=True).one_or_none()` returns the row when exactly
one matches and `None` when none does, and raises `MultipleResultsFound`
when several match — which the method catches, returning `None`. -/
def getDefault (locations : List LocationRec) : Option LocationRec :=
  match locations.filter (·.isDefault) with
  | [l] => some l
  | _ => none

/-! ## Multipart initialisation (spec-modelled)

The `MultipartObject` model is not in the given source tree (`models.py` in
this tree predates it; `tasks.py` imports it).  Its initialisation is
modelled from the specification. -/

/-- Fields of a freshly initiated `MultipartObject`: total `size`,
`chunk_size`, `last_part_number` and `last_part_size`.  `last_part_number`
is an `Int` because the spec decrements it for exact multiples. -/
structure MultipartInit where
  size : Nat
  chunk_size : Nat
  last_part_number : Int
  last_part_size : Nat
deriving DecidableEq, Repr

/-- Modelled from the spec: initiating a multipart upload of total size `S`
with part size `P` computes `last_part_number = floor(S/P)`,
`last_part_size = S - last_part_number*P` — "or P if S is an exact multiple,
in which case decrement last_part_number" (spec §4.6); the missing source is
`MultipartObject.create` in `models.py`. -/
def multipartInit (S P : Nat) : MultipartInit :=
  if S % P = 0 then
    { size := S, chunk_size := P, last_part_number := (S / P : Nat) - 1,
      last_part_size := P }
  else
    { size := S, chunk_size := P, last_part_number := (S / P : Nat),
      last_part_size := S % P }

/-! ## Path handling of the `FS` abstraction (`storage/pyfs.py`)

Paths are modelled as lists of components, as `pathlib.PurePath.parts`
presents them.  `Path.is_relative_to` is purely lexical (it does not resolve
`..`), and the `/` operator keeps `..` components while an absolute right
operand replaces the left one entirely. -/

/-- Argument to `FS._get_full_path`: a path that is either absolute or
relative, given by its components. -/
inductive PathArg where
  | absolute (parts : List String)
  | relative (parts : List String)
deriving DecidableEq, Repr

/-- Embedding of `pathlib`'s `/` operator used in `self._root_directory /
path` (`pyfs.py:116`): a relative right operand is appended to the root, an
absolute one replaces it. -/
def joinPath (root : List String) : PathArg → List String
  | .absolute parts => parts
  | .relative parts => root ++ parts

/-- Embedding of `PurePath.is_relative_to`, the check used at
`pyfs.py:117`: a purely lexical test that `root`'s components are an initial
segment of `p`'s components; `..` components are not resolved. -/
def pathIsRelativeTo (p root : List String) : Bool :=
  root.isPrefixOf p

/-- Embedding of `FS._get_full_path(path)` (`pyfs.py:109-119`): join the
root directory with the path and raise `ValueError` (here `.error ()`) when
the joined path is not lexically relative to the root. -/
def getFullPath (root : List String) (p : PathArg) : Except Unit (List String) :=
  let full := joinPath root p
  if pathIsRelativeTo full root then .ok full else .error ()

/-- Operating-system resolution of `..` components, which happens when the
returned path is actually opened (`full_path.open`, `pyfs.py:60`): each `..`
removes the preceding component. -/
def resolveParts (parts : List String) : List String :=
  parts.foldl (fun acc c => if c = ".." then acc.dropLast else acc ++ [c]) []

/-! ## Metadata model (`models.py`)

The relational state that the `Bucket` / `ObjectVersion` / `FileInstance`
operations act on.  Primary keys (UUIDs in the source) are modelled as
naturals drawn from a fresh-id counter `nextId`.  Only the columns the
claims mention are carried. -/

/-- Row of `files_bucket` (`models.py:154-291`): identifier, denormalised
`size`, and the `deleted` / `locked` flags.  (`quota_size`,
`default_location` and `default_storage_class` play no role in the claims
and are omitted.) -/
structure BucketRec where
  bid : Nat
  bsize : Nat
  bdeleted : Bool
  blocked : Bool
deriving DecidableEq, Repr

/-- Row of `files_object` (`models.py:517-583`): composite key
`(bucket_id, key, version_id)`, nullable `file_id` (null means delete
marker) and the `is_head` flag. -/
structure ObjVer where
  bucketId : Nat
  key : String
  versionId : Nat
  fileId : Option Nat
  isHead : Bool
deriving DecidableEq, Repr

/-- Row of `files_files` (`models.py:362-514`): identifier and size (the
only columns the bucket-size claims need). -/
structure FileRec where
  fid : Nat
  fsize : Nat
deriving DecidableEq, Repr

/-- Database state over the three tables, plus the fresh-id counter. -/
structure DBState where
  buckets : List BucketRec
  objects : List ObjVer
  files : List FileRec
  nextId : Nat
deriving DecidableEq, Repr

/-- Predicate selecting the row that `ObjectVersion.get(bucket, key)` with no
`version_id` matches (`models.py:743-767`): same bucket and key, `is_head`
true **and `file_id` not null** — a delete-marker head is not returned. -/
def isLiveHead (bid : Nat) (k : String) (o : ObjVer) : Bool :=
  o.bucketId == bid && o.key == k && o.isHead && o.fileId.isSome

/-- Embedding of `ObjectVersion.get(bucket, key)` (`models.py:743-767`):
`one_or_none` over the `isLiveHead` filter (under the uniqueness the code
relies on, the first match). -/
def ovGet (s : DBState) (bid : Nat) (k : String) : Option ObjVer :=
  s.objects.find? (isLiveHead bid k)

/-- Head demotion step of `ObjectVersion.create` (`models.py:721-725`): the
object returned by `ObjectVersion.get` — the live head, if any — gets
`is_head = False`.  Delete-marker heads do not match `get` and are left
untouched.  (Mapping over all matching rows coincides with demoting the one
returned row whenever at most one row matches, which is what `one_or_none`
presumes.) -/
def demoteLiveHead (objs : List ObjVer) (bid : Nat) (k : String) : List ObjVer :=
  objs.map fun o => if isLiveHead bid k o then { o with isHead := false } else o

/-- Embedding of `ObjectVersion.create(bucket, key, _file_id)`
(`models.py:703-741`, without a `stream`): demote the live head, then insert
a new row with a fresh `version_id`, `is_head=True` and the given
`file_id` (null by default, i.e. a delete marker).  Bucket sizes are not
touched by `create`. -/
def ovCreate (s : DBState) (bid : Nat) (k : String) (fileId : Option Nat) :
    DBState :=
  { s with
    objects :=
      { bucketId := bid, key := k, versionId := s.nextId, fileId := fileId,
        isHead := true } :: demoteLiveHead s.objects bid k,
    nextId := s.nextId + 1 }

/-- Add `n` to the `size` of bucket `bid` (`self.bucket.size += size`,
`models.py:622/648/658`). -/
def bucketBump (bs : List BucketRec) (bid : Nat) (n : Nat) : List BucketRec :=
  bs.map fun b => if b.bid == bid then { b with bsize := b.bsize + n } else b

/-- Combined effect of `ObjectVersion.create(bucket, key)` immediately
followed by `set_contents(stream)` on the new head (`models.py:602-624`,
the PUT path of `views.py:597-601`) or by `set_location(uri, size, checksum)`
(`models.py:626-650`): the live head is demoted, the new head is inserted
pointing at a fresh `FileInstance` of size `sz`, and `bucket.size` grows by
`sz`.  (`set_contents` creates the file via `FileInstance.create()` and
`save`; `set_location` via `FileInstance()` and `set_uri`; both end with
`self.bucket.size += size`.) -/
def ovPut (s : DBState) (bid : Nat) (k : String) (sz : Nat) : DBState :=
  let fid := s.nextId + 1
  { s with
    objects :=
      { bucketId := bid, key := k, versionId := s.nextId, fileId := some fid,
        isHead := true } :: demoteLiveHead s.objects bid k,
    files := { fid := fid, fsize := sz } :: s.files,
    buckets := bucketBump s.buckets bid sz,
    nextId := s.nextId + 2 }

/-- Embedding of `ObjectVersion.delete(bucket, key)` (`models.py:785-799`):
when `ObjectVersion.get` finds a live head, create a delete marker (a new
head with null `file_id`); otherwise do nothing. -/
def ovDelete (s : DBState) (bid : Nat) (k : String) : DBState :=
  match ovGet s bid k with
  | some _ => ovCreate s bid k none
  | none => s

/-- Exceptions of `models.py` present in this model (the `errors.py` module
itself is absent from the tree; its classes are plain markers). -/
inductive ModelError where
  | invalidOperation
  | fileInstanceAlreadySet
deriving DecidableEq, Repr

/-- Embedding of `ObjectVersion.copy(bucket, key)` (`models.py:671-701`)
applied to the loaded row `v`: raise `InvalidOperationError` when `v` is a
delete marker (`is_deleted`, i.e. null `file_id`); otherwise create a new
version at the destination sharing `v`'s `file_id`.  Returns the resulting
state and the raised error, if any. -/
def ovCopy (s : DBState) (v : ObjVer) (dstBucket : Nat) (dstKey : String) :
    DBState × Option ModelError :=
  if v.fileId = none then (s, some .invalidOperation)
  else (ovCreate s dstBucket dstKey v.fileId, none)

/-- Embedding of `ObjectVersion.restore` (`models.py:662-669`): raise
`InvalidOperationError` when `v` is the head, otherwise delegate to
`copy()` with the version's own bucket and key. -/
def ovRestore (s : DBState) (v : ObjVer) : DBState × Option ModelError :=
  if v.isHead then (s, some .invalidOperation)
  else ovCopy s v v.bucketId v.key

/-- Embedding of `Bucket.snapshot(lock)` (`models.py:224-245`) on the loaded
bucket row `b`: raise `InvalidOperationError` when `b` is deleted; otherwise
insert a fresh bucket (size 0, `locked = lock or b.locked`) and copy every
row `ObjectVersion.get_by_bucket` yields — the live heads of `b`
(`models.py:801-814` filters `file_id` non-null and `is_head`) — into it via
`o.copy(bucket=new)`.  The copies cannot raise: `get_by_bucket` never yields
a delete marker. -/
def bucketSnapshot (s : DBState) (b : BucketRec) (lock : Bool) :
    DBState × Option ModelError :=
  if b.bdeleted then (s, some .invalidOperation)
  else
    let newBid := s.nextId
    let s1 : DBState :=
      { s with
        buckets :=
          { bid := newBid, bsize := 0, bdeleted := false,
            blocked := lock || b.blocked } :: s.buckets,
        nextId := s.nextId + 1 }
    let heads := s.objects.filter fun o =>
      o.bucketId == b.bid && o.fileId.isSome && o.isHead
    (heads.foldl (fun st o => ovCreate st newBid o.key o.fileId) s1, none)

/-- User-level operations for reachability traces: `put` is an object upload
(`ObjectVersion.create` + `set_contents`/`set_location`), `del` is
`ObjectVersion.delete`, and `copyHead` copies the current live head of
`(bid, k)` to a destination, as the snapshot and copy entry points do. -/
inductive Op where
  | put (bid : Nat) (k : String) (sz : Nat)
  | del (bid : Nat) (k : String)
  | copyHead (bid : Nat) (k : String) (dstBid : Nat) (dstKey : String)
deriving DecidableEq, Repr

/-- Whether an operation is a metadata-only copy. -/
def Op.isCopy : Op → Bool
  | .copyHead _ _ _ _ => true
  | _ => false

/-- Does a bucket row with this id exist?  Operations on missing buckets
fail with 404 / `NoneType` errors in the source before touching any state,
so they are modelled as no-ops. -/
def bucketExists (s : DBState) (bid : Nat) : Bool :=
  s.buckets.any (·.bid == bid)

/-- One trace step. -/
def stepOp (s : DBState) : Op → DBState
  | .put bid k sz => if bucketExists s bid then ovPut s bid k sz else s
  | .del bid k => if bucketExists s bid then ovDelete s bid k else s
  | .copyHead bid k dstBid dstKey =>
    if bucketExists s bid && bucketExists s dstBid then
      match ovGet s bid k with
      | some v => (ovCopy s v dstBid dstKey).1
      | none => s
    else s

/-- Initial state: one empty bucket with id 0. -/
def st0 : DBState :=
  { buckets := [{ bid := 0, bsize := 0, bdeleted := false, blocked := false }],
    objects := [], files := [], nextId := 1 }

/-- Run a trace of operations from the initial state. -/
def runOps (ops : List Op) : DBState :=
  ops.foldl stepOp st0

/-- Number of `is_head=True` rows for a given `(bucket_id, key)`. -/
def headCount (s : DBState) (bid : Nat) (k : String) : Nat :=
  s.objects.countP fun o => o.bucketId == bid && o.key == k && o.isHead

/-- Size recorded for file `fid` (0 when the row is absent). -/
def fileSize (files : List FileRec) (fid : Nat) : Nat :=
  ((files.find? (·.fid == fid)).map (·.fsize)).getD 0

/-- Contribution of one object version to its bucket's file-size sum: the
size of its file when it has one (delete markers contribute nothing). -/
def sumFiles (files : List FileRec) (bid : Nat) : List ObjVer → Nat
  | [] => 0
  | o :: rest =>
    (if o.bucketId = bid then
      match o.fileId with
      | some fid => fileSize files fid
      | none => 0
    else 0) + sumFiles files bid rest

/-- Sum of `v.file.size` over the object versions of bucket `bid` with a
non-null file — the right-hand side of the spec's bucket-size invariant. -/
def bucketSum (s : DBState) (bid : Nat) : Nat :=
  sumFiles s.files bid s.objects

/-- Recorded `size` column of bucket `bid` (0 when the row is absent). -/
def bucketSize (s : DBState) (bid : Nat) : Nat :=
  ((s.buckets.find? (·.bid == bid)).map (·.bsize)).getD 0

/-! ## Object PUT view (`views.py` `ObjectResource.put`)

The upload endpoint resolves a size limit through the configured
`file_size_limiter` (whose module is not in the tree; the resolved limit and
its reason are inputs here) and rejects the request with HTTP 400 before
creating any row when `content_length > size_limit` (`views.py:586-590`). -/

/-- Outcome of a PUT request. -/
inductive PutResp where
  | notFound
  | fileSizeRejected (reason : String)
  | unexpectedSizeRejected
  | created
deriving DecidableEq, Repr

/-- Embedding of `ObjectResource.put` (`views.py:517-615`), after
authentication: 404 when the bucket does not exist; 400 with the limiter's
reason when the declared `Content-Length` strictly exceeds the resolved size
limit — before `ObjectVersion.create` runs; otherwise create the version and
stream the body (`actual_bytes` long) with `size=content_length`, which the
size checks of `_write_stream` force to equal the declared length on any
committed upload (a mismatch raises `UnexpectedFileSizeError`, the session
is rolled back and 400 returned). -/
def viewPut (s : DBState) (bid : Nat) (k : String) (size_limit : Option Nat)
    (reason : String) (content_length : Nat) (actual_bytes : Nat) :
    DBState × PutResp :=
  if bucketExists s bid then
    let proceed : DBState × PutResp :=
      if actual_bytes = content_length then (ovPut s bid k actual_bytes, .created)
      else (s, .unexpectedSizeRejected)
    match size_limit with
    | some l => if content_length > l then (s, .fileSizeRejected reason) else proceed
    | none => proceed
  else (s, .notFound)

/-! ## Theorems for the claims -/

/-- C1: the spec demands exactly one `is_head=True` row per `(bucket_id,
key)`, with `ObjectVersion.create` demoting even a delete-marker head.  The
code's demotion step uses `ObjectVersion.get`, which skips delete markers
(`file_id IS NOT NULL`), so uploading over a delete marker leaves **two**
heads: after `put; delete` the key has one head (the marker), but after the
next `put` it has two. -/
theorem claim_C1_marker_head_not_demoted :
    headCount (runOps [.put 0 "k" 5, .del 0 "k"]) 0 "k" = 1
    ∧ headCount (runOps [.put 0 "k" 5, .del 0 "k", .put 0 "k" 7]) 0 "k" = 2 := by
  constructor <;> rfl

/-- C3: `check_sizelimit` fails with `FileSizeError` exactly when the bytes
read exceed the size limit, carrying the limit's reason when the limit is a
`FileSizeLimit` object; it fails with `UnexpectedFileSizeError('File is
bigger than expected.')` exactly when the bytes read exceed the declared
size (and no limit violation pre-empts it); and the post-EOF `check_size`
fails with `UnexpectedFileSizeError('File is smaller than expected.')`
exactly when a declared size was given and fewer bytes were read. -/
theorem claim_C3_size_checks :
    (∀ (lim : SizeLimit) (bytes : Nat) (sz : Option Nat),
      (∃ d, check_sizelimit (some lim) bytes sz = some (.fileSizeError d))
        ↔ lim.value < bytes)
    ∧ (∀ (l : Nat) (r : String) (bytes : Nat) (sz : Option Nat),
      check_sizelimit (some (.limitObj l r)) bytes sz = some (.fileSizeError r)
        ↔ l < bytes)
    ∧ (∀ (lim : Option SizeLimit) (bytes sz : Nat),
      check_sizelimit lim bytes (some sz)
          = some (.unexpectedFileSizeError "File is bigger than expected.")
        ↔ (sz < bytes ∧ ∀ l, lim = some l → bytes ≤ l.value))
    ∧ (∀ (bytes sz : Nat),
      check_size bytes (some sz)
          = some (.unexpectedFileSizeError "File is smaller than expected.")
        ↔ bytes < sz) := by
  refine ⟨?_, ?_, ?_, ?_⟩
  · intro lim bytes sz
    by_cases h : lim.value < bytes
    · simp [check_sizelimit, h]
    · cases sz <;> simp [check_sizelimit, h]
  · intro l r bytes sz
    by_cases h : l < bytes
    · simp [check_sizelimit, SizeLimit.value, SizeLimit.desc, h]
    · cases sz with
      | none => simp [check_sizelimit, SizeLimit.value, SizeLimit.desc, h]
      | some t =>
        by_cases ht : t < bytes <;>
          simp [check_sizelimit, SizeLimit.value, SizeLimit.desc, h, ht]
  · intro lim bytes sz
    cases lim with
    | none =>
      by_cases h : sz < bytes <;> simp [check_sizelimit, h]
    | some l =>
      by_cases hl : l.value < bytes
      · simp [check_sizelimit, hl]
      · by_cases h : sz < bytes
        · simp [check_sizelimit, hl, h]
          omega
        · simp [check_sizelimit, hl, h]
  · intro bytes sz
    by_cases h0 : sz = 0
    · simp [check_size, h0]
    · by_cases h : bytes < sz <;> simp [check_size, h0, h]

/-- C4: `PyFSFileStorage.save` returns `(fileurl, bytes_written, checksum)`
on success; on any error raised while writing (size-limit violation,
unexpected size, storage or stream failure) it deletes the partially
written blob — and, with the default `clean_dir=True`, its containing
directory — before re-raising, so no partial file remains at the target
URI. -/
theorem claim_C4_save_cleanup :
    ∀ (fs : LocalFS) (fileurl : String) (e : SizeCheckError) (clean_dir : Bool)
      (bytes_written : Nat) (checksum : String),
      (pyfsSave clean_dir fs fileurl (.error e)).1.fileExists = false
      ∧ (pyfsSave true fs fileurl (.error e)).1.dirExists = false
      ∧ (pyfsSave clean_dir fs fileurl (.error e)).2 = .error e
      ∧ pyfsSave clean_dir fs fileurl (.ok (bytes_written, checksum))
          = ({ fileExists := true, dirExists := true },
             .ok (fileurl, bytes_written, checksum)) := by
  intro fs fileurl e clean_dir bytes_written checksum
  refine ⟨rfl, rfl, rfl, rfl⟩

/-- C7: `FileInstance.verify_checksum` leaves the stored `checksum` column
unchanged, sets `last_check_at` to the current time, and sets `last_check`
to whether the recomputed checksum equals the stored one — in particular
`false` whenever the blob's recomputed checksum differs from the stored
one. -/
theorem claim_C7_verify_checksum :
    (∀ (f : FileFixity) (real_checksum : String) (now : Nat),
      (verifyChecksum f real_checksum now).1.checksum = f.checksum
      ∧ (verifyChecksum f real_checksum now).1.last_check_at = some now
      ∧ ((verifyChecksum f real_checksum now).1.last_check = true
          ↔ f.checksum = some real_checksum)
      ∧ (verifyChecksum f real_checksum now).2
          = (verifyChecksum f real_checksum now).1.last_check)
    ∧ (∀ (stored real_checksum : String) (lc : Bool) (t : Option Nat) (now : Nat),
        stored ≠ real_checksum →
        (verifyChecksum ⟨some stored, lc, t⟩ real_checksum now).1.last_check
          = false) := by
  constructor
  · intro f real_checksum now
    refine ⟨rfl, rfl, ?_, rfl⟩
    simp [verifyChecksum]
  · intro stored real_checksum lc t now h
    simp [verifyChecksum, h]

/-- C7 witness: a corrupted blob (recomputed checksum differs from the
stored one) yields `last_check = false`. -/
theorem claim_C7_verify_checksum_witness :
    (verifyChecksum ⟨some "md5:aa", true, none⟩ "md5:bb" 7).1.last_check
      = false :=
  claim_C7_verify_checksum.2 "md5:aa" "md5:bb" true none 7 (by decide)

/-- C8 counterexample: with two `default=True` locations at least one
default exists, yet `Location.get_default()` returns `None` (the
`MultipleResultsFound` raised by `one_or_none` is caught), contradicting
the claim that a location is returned whenever at least one default exists
and that the first match is picked. -/
theorem claim_C8_counterexample :
    getDefault [{ name := "a", isDefault := true },
                { name := "b", isDefault := true }] = none
    ∧ ([{ name := "a", isDefault := true },
        { name := "b", isDefault := true }].filter
          (LocationRec.isDefault)).length = 2 := by
  constructor <;> rfl

/-- C8 amended: `Location.get_default()` returns the unique default
location when exactly one row has `default=True`, and returns `None` both
when no default exists and when several do. -/
theorem claim_C8_amended_get_default :
    ∀ (locs : List LocationRec) (l : LocationRec),
      (getDefault locs = some l ↔ locs.filter (·.isDefault) = [l])
      ∧ (getDefault locs = none ↔ (locs.filter (·.isDefault)).length ≠ 1) := by
  intro locs l
  rcases hf : locs.filter (·.isDefault) with _ | ⟨a, _ | ⟨b, tl⟩⟩ <;>
    simp [getDefault, hf]

/-- C9 (modelled from the spec; the `MultipartObject` model is absent from
the source tree): multipart initiation with total size `S` and positive
part size `P` satisfies `size = last_part_number * chunk_size +
last_part_size` with `0 < last_part_size ≤ chunk_size`; when `S` is an
exact multiple of `P` the last part has size `P` (never 0) and
`last_part_number` is decremented to `S/P - 1`. -/
theorem claim_C9_multipart_invariant (S P : Nat) (hP : 0 < P) :
    ((multipartInit S P).size : Int)
      = (multipartInit S P).last_part_number * ((multipartInit S P).chunk_size : Int)
        + ((multipartInit S P).last_part_size : Int)
    ∧ 0 < (multipartInit S P).last_part_size
    ∧ (multipartInit S P).last_part_size ≤ (multipartInit S P).chunk_size
    ∧ (S % P = 0 →
        (multipartInit S P).last_part_size = P
        ∧ (multipartInit S P).last_part_number = ((S / P : Nat) : Int) - 1) := by
  by_cases h : S % P = 0
  · have hdvd : P ∣ S := Nat.dvd_of_mod_eq_zero h
    have hmul : S / P * P = S := Nat.div_mul_cancel hdvd
    have hcast : ((S / P : Nat) : Int) * (P : Int) = (S : Int) := by
      exact_mod_cast hmul
    refine ⟨?_, by simpa [multipartInit, h] using hP, ?_, ?_⟩
    · unfold multipartInit
      rw [if_pos h]
      dsimp only
      linear_combination -hcast
    · simp [multipartInit, h]
    · intro _
      unfold multipartInit
      rw [if_pos h]
      exact ⟨rfl, rfl⟩
  · have hmod : S % P < P := Nat.mod_lt S hP
    have hpos : 0 < S % P := Nat.pos_of_ne_zero h
    have hcast : ((S / P : Nat) : Int) * (P : Int) + ((S % P : Nat) : Int)
        = (S : Int) := by
      exact_mod_cast Nat.div_add_mod' S P
    refine ⟨?_, by simpa [multipartInit, h] using hpos, ?_, ?_⟩
    · unfold multipartInit
      rw [if_neg h]
      dsimp only
      linear_combination -hcast
    · simpa [multipartInit, h] using le_of_lt hmod
    · intro hc
      exact absurd hc h

/-- C9 witness: with `S = 12`, `P = 6` (an exact multiple) the last part
size is 6 and the last part number is decremented to 1; with `S = 11`,
`P = 6` the invariant yields a last part of 5. -/
theorem claim_C9_multipart_invariant_witness :
    ((multipartInit 12 6).last_part_size = 6
      ∧ (multipartInit 12 6).last_part_number = ((12 / 6 : Nat) : Int) - 1)
    ∧ 0 < (multipartInit 11 6).last_part_size :=
  ⟨(claim_C9_multipart_invariant 12 6 (by norm_num)).2.2.2 (by norm_num),
   (claim_C9_multipart_invariant 11 6 (by norm_num)).2.1⟩

/-- C10: `FS._get_full_path` accepts the relative path `../secret` — the
lexical `is_relative_to` check passes because `..` is not resolved — even
though resolving it escapes the base directory `data/loc`, landing at
`data/secret`; only absolute inputs are rejected.  So the claimed
`ValueError`-before-filesystem-access guarantee fails for `..` traversal. -/
theorem claim_C10_traversal_escapes :
    getFullPath ["data", "loc"] (.relative ["..", "secret"])
      = .ok ["data", "loc", "..", "secret"]
    ∧ resolveParts ["data", "loc", "..", "secret"] = ["data", "secret"]
    ∧ pathIsRelativeTo (resolveParts ["data", "loc", "..", "secret"])
        ["data", "loc"] = false
    ∧ getFullPath ["data", "loc"] (.absolute ["etc", "passwd"]) = .error () := by
  refine ⟨rfl, rfl, rfl, rfl⟩

/-- C2 counterexample: after uploading a 5-byte file to key `k` and then
metadata-copying the head to key `k2` (same bucket, shared `file_id`), the
bucket's object versions with a non-null file have sizes summing to 10,
but `bucket.size` is still 5: `ObjectVersion.copy` goes through
`ObjectVersion.create(_file_id=...)`, which never touches `bucket.size`. -/
theorem claim_C2_counterexample :
    bucketSize (runOps [.put 0 "k" 5, .copyHead 0 "k" 0 "k2"]) 0 = 5
    ∧ bucketSum (runOps [.put 0 "k" 5, .copyHead 0 "k" 0 "k2"]) 0 = 10
    ∧ bucketSize (runOps [.put 0 "k" 5, .copyHead 0 "k" 0 "k2"]) 0
        ≠ bucketSum (runOps [.put 0 "k" 5, .copyHead 0 "k" 0 "k2"]) 0 := by
  refine ⟨rfl, rfl, by decide⟩

/-- C6 counterexample: `ObjectVersion.restore` on a version that is **not**
the current head but is a delete marker raises `InvalidOperationError`
(through the `copy()` it delegates to), so the three operations raise
`InvalidOperationError` in a case outside the claim's list (restore was
claimed to fail only on the current head). -/
theorem claim_C6_counterexample :
    ovRestore st0
        { bucketId := 0, key := "k", versionId := 1, fileId := none,
          isHead := false }
      = (st0, some .invalidOperation)
    ∧ ({ bucketId := 0, key := "k", versionId := 1, fileId := none,
         isHead := false } : ObjVer).isHead = false := by
  constructor <;> rfl

/-- C6 amended: `InvalidOperationError` is raised exactly on: snapshot of a
deleted bucket, copy of a delete marker, and restore of the current head
**or of a delete marker** (restore delegates to copy, which rejects delete
markers); in each raising case the database state is left unchanged, and
none of the three operations raises it under any other condition. -/
theorem claim_C6_amended_invalid_operation :
    ∀ (s : DBState) (b : BucketRec) (lock : Bool) (v : ObjVer)
      (dstBid : Nat) (dstKey : String),
      ((bucketSnapshot s b lock).2 = some .invalidOperation ↔ b.bdeleted = true)
      ∧ (b.bdeleted = true → (bucketSnapshot s b lock).1 = s)
      ∧ ((ovCopy s v dstBid dstKey).2 = some .invalidOperation ↔ v.fileId = none)
      ∧ (v.fileId = none → (ovCopy s v dstBid dstKey).1 = s)
      ∧ ((ovRestore s v).2 = some .invalidOperation
          ↔ (v.isHead = true ∨ v.fileId = none))
      ∧ ((v.isHead = true ∨ v.fileId = none) → (ovRestore s v).1 = s) := by
  intro s b lock v dstBid dstKey
  refine ⟨?_, ?_, ?_, ?_, ?_, ?_⟩
  · by_cases hd : b.bdeleted <;> simp [bucketSnapshot, hd]
  · intro hd
    simp [bucketSnapshot, hd]
  · by_cases hf : v.fileId = none <;> simp [ovCopy, hf]
  · intro hf
    simp [ovCopy, hf]
  · by_cases hh : v.isHead <;> by_cases hf : v.fileId = none <;>
      simp [ovRestore, ovCopy, hh, hf]
  · intro hcase
    by_cases hh : v.isHead
    · simp [ovRestore, hh]
    · have hf : v.fileId = none := by
        rcases hcase with hc | hc
        · exact absurd hc hh
        · exact hc
      simp [ovRestore, ovCopy, hh, hf]

/-- C6 witness: a deleted bucket's snapshot leaves the state unchanged, and
restore of a non-head delete marker raises `InvalidOperationError`. -/
theorem claim_C6_amended_invalid_operation_witness :
    (bucketSnapshot st0
        { bid := 9, bsize := 0, bdeleted := true, blocked := false } false).1
      = st0
    ∧ (ovRestore st0
        { bucketId := 0, key := "q", versionId := 2, fileId := none,
          isHead := false }).2 = some .invalidOperation := by
  have h := claim_C6_amended_invalid_operation st0
    { bid := 9, bsize := 0, bdeleted := true, blocked := false } false
    { bucketId := 0, key := "q", versionId := 2, fileId := none,
      isHead := false } 0 "q2"
  exact ⟨h.2.1 rfl, h.2.2.2.2.1.mpr (Or.inr rfl)⟩

/-- C5: with a resolved size limit, the PUT upload endpoint fails with the
file-size rejection (HTTP 400 with the limiter's reason) exactly when the
declared `Content-Length` strictly exceeds the limit, in which case no
metadata row is created and nothing is streamed (the state is returned
untouched); a request whose `Content-Length` equals the limit is not
size-rejected and, when the body matches its declared length, is created. -/
theorem claim_C5_put_size_limit :
    ∀ (s : DBState) (bid : Nat) (k : String) (l : Nat) (reason : String)
      (content_length actual_bytes : Nat),
      bucketExists s bid = true →
      (((viewPut s bid k (some l) reason content_length actual_bytes).2
          = .fileSizeRejected reason) ↔ l < content_length)
      ∧ (l < content_length →
          viewPut s bid k (some l) reason content_length actual_bytes
            = (s, .fileSizeRejected reason))
      ∧ (content_length = l → actual_bytes = content_length →
          (viewPut s bid k (some l) reason content_length actual_bytes).2
            = .created) := by
  intro s bid k l reason content_length actual_bytes hb
  refine ⟨?_, ?_, ?_⟩
  · by_cases hgt : l < content_length
    · simp [viewPut, hb, hgt]
    · by_cases ha : actual_bytes = content_length <;>
        simp [viewPut, hb, hgt, ha]
  · intro hgt
    simp [viewPut, hb, hgt]
  · intro hcl ha
    have hgt : ¬ l < content_length := by omega
    simp [viewPut, hb, hgt, ha]

/-- C5 witness: against the initial one-bucket state with limit 10, a
declared length of 11 is rejected before any state change, and a declared
length of exactly 10 is accepted. -/
theorem claim_C5_put_size_limit_witness :
    viewPut st0 0 "k" (some 10) "Bucket quota exceeded." 11 11
      = (st0, .fileSizeRejected "Bucket quota exceeded.")
    ∧ (viewPut st0 0 "k" (some 10) "Bucket quota exceeded." 10 10).2
      = .created := by
  have h1 := claim_C5_put_size_limit st0 0 "k" 10 "Bucket quota exceeded."
    11 11 rfl
  have h2 := claim_C5_put_size_limit st0 0 "k" 10 "Bucket quota exceeded."
    10 10 rfl
  exact ⟨h1.2.1 (by norm_num), h2.2.2 rfl rfl⟩

/-! ## Bucket-size invariant machinery (claim C2)

Helper lemmas showing how each non-copy operation moves `bucket.size` and
the sum of the attached file sizes in lockstep. -/

/-- Freshness of file identifiers: every `file_id` referenced from an object
version is below the fresh-id counter. -/
def FreshFiles (s : DBState) : Prop :=
  ∀ o ∈ s.objects, ∀ fid, o.fileId = some fid → fid < s.nextId

/-- Demoting the live head changes only `is_head`, so the file-size sum is
unchanged. -/
theorem sumFiles_demoteLiveHead (files : List FileRec) (objs : List ObjVer)
    (bid : Nat) (k : String) (b2 : Nat) :
    sumFiles files b2 (demoteLiveHead objs bid k) = sumFiles files b2 objs := by
  induction objs with
  | nil => rfl
  | cons o rest ih =>
    by_cases hm : isLiveHead bid k o <;>
      simp [demoteLiveHead, sumFiles, hm] <;>
      simpa [demoteLiveHead] using ih

/-- Consing a file row whose id is not `fid` does not change `fileSize`. -/
theorem fileSize_cons_ne (files : List FileRec) (nf : FileRec) (fid : Nat)
    (h : nf.fid ≠ fid) :
    fileSize (nf :: files) fid = fileSize files fid := by
  simp [fileSize, List.find?_cons_of_neg, h]

/-- Looking up the freshly consed file row yields its size. -/
theorem fileSize_cons_self (files : List FileRec) (nf : FileRec) :
    fileSize (nf :: files) nf.fid = nf.fsize := by
  simp [fileSize, List.find?_cons_of_pos]

/-- Consing a file row fresher than everything the object versions reference
leaves the file-size sum unchanged. -/
theorem sumFiles_cons_fresh (files : List FileRec) (nf : FileRec)
    (objs : List ObjVer) (b2 : Nat)
    (hfresh : ∀ o ∈ objs, ∀ fid, o.fileId = some fid → nf.fid ≠ fid) :
    sumFiles (nf :: files) b2 objs = sumFiles files b2 objs := by
  induction objs with
  | nil => rfl
  | cons o rest ih =>
    have htail : sumFiles (nf :: files) b2 rest = sumFiles files b2 rest :=
      ih fun o2 ho2 => hfresh o2 (List.mem_cons_of_mem o ho2)
    have hhead : (if o.bucketId = b2 then
        match o.fileId with
        | some fid => fileSize (nf :: files) fid
        | none => 0
      else 0) = (if o.bucketId = b2 then
        match o.fileId with
        | some fid => fileSize files fid
        | none => 0
      else 0) := by
      by_cases hb : o.bucketId = b2 <;> simp only [hb, if_pos, if_neg]
      · cases hf : o.fileId with
        | none => rfl
        | some fid =>
          exact fileSize_cons_ne files nf fid
            (hfresh o (List.mem_cons_self o rest) fid hf)
      · simp
    simp only [sumFiles, hhead, htail]

/-- Freshness bound transfer through head demotion. -/
theorem fresh_demoteLiveHead (objs : List ObjVer) (bid : Nat) (k : String)
    (bound : Nat)
    (h : ∀ o ∈ objs, ∀ fid, o.fileId = some fid → fid < bound) :
    ∀ o ∈ demoteLiveHead objs bid k, ∀ fid, o.fileId = some fid →
      fid < bound := by
  intro o ho fid hfo
  simp only [demoteLiveHead, List.mem_map] at ho
  obtain ⟨o0, ho0, rfl⟩ := ho
  by_cases hm : isLiveHead bid k o0
  · simp only [hm, if_pos] at hfo
    exact h o0 ho0 fid hfo
  · simp only [hm, Bool.false_eq_true, if_false] at hfo
    exact h o0 ho0 fid hfo

/-- An upload (`ovPut`) adds exactly the uploaded size to the target
bucket's file-size sum. -/
theorem bucketSum_ovPut_self (s : DBState) (bid : Nat) (k : String) (sz : Nat)
    (hfresh : FreshFiles s) :
    bucketSum (ovPut s bid k sz) bid = sz + bucketSum s bid := by
  have hfresh2 : ∀ o ∈ demoteLiveHead s.objects bid k, ∀ fid,
      o.fileId = some fid →
      (({ fid := s.nextId + 1, fsize := sz } : FileRec)).fid ≠ fid := by
    intro o ho fid hfo
    have := fresh_demoteLiveHead s.objects bid k s.nextId hfresh o ho fid hfo
    simp only [ne_eq]
    omega
  show sumFiles ({ fid := s.nextId + 1, fsize := sz } :: s.files) bid
      ({ bucketId := bid, key := k, versionId := s.nextId,
         fileId := some (s.nextId + 1), isHead := true }
        :: demoteLiveHead s.objects bid k)
    = sz + sumFiles s.files bid s.objects
  rw [sumFiles, sumFiles_cons_fresh s.files _ _ bid hfresh2,
    sumFiles_demoteLiveHead]
  have hfs : fileSize ({ fid := s.nextId + 1, fsize := sz } :: s.files)
      (s.nextId + 1) = sz := fileSize_cons_self s.files _
  simp [hfs]

/-- An upload into bucket `bid` does not change the file-size sum of any
other bucket. -/
theorem bucketSum_ovPut_other (s : DBState) (bid : Nat) (k : String)
    (sz : Nat) (b2 : Nat) (hfresh : FreshFiles s) (hne : bid ≠ b2) :
    bucketSum (ovPut s bid k sz) b2 = bucketSum s b2 := by
  have hfresh2 : ∀ o ∈ demoteLiveHead s.objects bid k, ∀ fid,
      o.fileId = some fid →
      (({ fid := s.nextId + 1, fsize := sz } : FileRec)).fid ≠ fid := by
    intro o ho fid hfo
    have := fresh_demoteLiveHead s.objects bid k s.nextId hfresh o ho fid hfo
    simp only [ne_eq]
    omega
  show sumFiles ({ fid := s.nextId + 1, fsize := sz } :: s.files) b2
      ({ bucketId := bid, key := k, versionId := s.nextId,
         fileId := some (s.nextId + 1), isHead := true }
        :: demoteLiveHead s.objects bid k)
    = sumFiles s.files b2 s.objects
  rw [sumFiles, sumFiles_cons_fresh s.files _ _ b2 hfresh2,
    sumFiles_demoteLiveHead]
  simp [hne]

/-- Creating a delete marker (`ovCreate` with null `file_id`) changes no
bucket's file-size sum. -/
theorem bucketSum_ovCreate_none (s : DBState) (bid : Nat) (k : String)
    (b2 : Nat) :
    bucketSum (ovCreate s bid k none) b2 = bucketSum s b2 := by
  show sumFiles s.files b2
      ({ bucketId := bid, key := k, versionId := s.nextId, fileId := none,
         isHead := true } :: demoteLiveHead s.objects bid k)
    = sumFiles s.files b2 s.objects
  rw [sumFiles, sumFiles_demoteLiveHead]
  simp

/-- The metadata-only copy path (`ObjectVersion.create` with `_file_id`)
never writes `bucket.size`. -/
theorem bucketSize_ovCreate (s : DBState) (bid : Nat) (k : String)
    (fid : Option Nat) (b2 : Nat) :
    bucketSize (ovCreate s bid k fid) b2 = bucketSize s b2 := rfl

/-- Bumping bucket `bid` adds `n` to its recorded size (list level). -/
theorem find_bump_self (bid n : Nat) :
    ∀ (bs : List BucketRec), bs.any (·.bid == bid) = true →
    (((bucketBump bs bid n).find? (·.bid == bid)).map (·.bsize)).getD 0
    = ((bs.find? (·.bid == bid)).map (·.bsize)).getD 0 + n := by
  intro bs
  induction bs with
  | nil => intro hex; simp at hex
  | cons b rest ih =>
    intro hex
    have hmap : bucketBump (b :: rest) bid n
        = (if b.bid == bid then { b with bsize := b.bsize + n } else b)
          :: bucketBump rest bid n := rfl
    by_cases hb : b.bid = bid
    · rw [hmap, if_pos (by simp [hb])]
      rw [List.find?_cons_of_pos _ (by simp [hb]),
        List.find?_cons_of_pos _ (by simp [hb])]
      simp
    · have hex2 : rest.any (·.bid == bid) = true := by
        simpa [List.any_cons, hb] using hex
      rw [hmap, if_neg (by simp [hb])]
      rw [List.find?_cons_of_neg _ (by simp [hb]),
        List.find?_cons_of_neg _ (by simp [hb])]
      exact ih hex2

/-- Bumping bucket `bid` leaves every other bucket's recorded size alone
(list level). -/
theorem find_bump_other (bid n b2 : Nat) (hne : b2 ≠ bid) :
    ∀ (bs : List BucketRec),
    (((bucketBump bs bid n).find? (·.bid == b2)).map (·.bsize)).getD 0
    = ((bs.find? (·.bid == b2)).map (·.bsize)).getD 0 := by
  intro bs
  induction bs with
  | nil => rfl
  | cons b rest ih =>
    have hmap : bucketBump (b :: rest) bid n
        = (if b.bid == bid then { b with bsize := b.bsize + n } else b)
          :: bucketBump rest bid n := rfl
    by_cases hb : b.bid = bid
    · have hb2 : b.bid ≠ b2 := by omega
      rw [hmap, if_pos (by simp [hb])]
      rw [List.find?_cons_of_neg _ (by simp [hb2]),
        List.find?_cons_of_neg _ (by simp [hb2])]
      exact ih
    · by_cases hb2 : b.bid = b2
      · rw [hmap, if_neg (by simp [hb])]
        rw [List.find?_cons_of_pos _ (by simp [hb2]),
          List.find?_cons_of_pos _ (by simp [hb2])]
      · rw [hmap, if_neg (by simp [hb])]
        rw [List.find?_cons_of_neg _ (by simp [hb2]),
          List.find?_cons_of_neg _ (by simp [hb2])]
        exact ih

/-- Every step preserves file-id freshness. -/
theorem freshFiles_step (s : DBState) (op : Op) (h : FreshFiles s) :
    FreshFiles (stepOp s op) := by
  have hmono : ∀ o ∈ s.objects, ∀ fid, o.fileId = some fid →
      fid < s.nextId + 2 := by
    intro o ho fid hfo
    have := h o ho fid hfo
    omega
  have hmono1 : ∀ o ∈ s.objects, ∀ fid, o.fileId = some fid →
      fid < s.nextId + 1 := by
    intro o ho fid hfo
    have := h o ho fid hfo
    omega
  cases op with
  | put bid k sz =>
    by_cases hex : bucketExists s bid
    · intro o ho fid hfo
      simp only [stepOp, hex, if_pos, ovPut, List.mem_cons] at ho ⊢
      rcases ho with rfl | ho
      · simp only [Option.some.injEq] at hfo
        omega
      · exact fresh_demoteLiveHead s.objects bid k (s.nextId + 2) hmono
          o ho fid hfo
    · simpa [stepOp, hex] using h
  | del bid k =>
    by_cases hex : bucketExists s bid
    · simp only [stepOp, hex, if_pos, ovDelete]
      cases hget : ovGet s bid k with
      | none => exact h
      | some v =>
        intro o ho fid hfo
        simp only [ovCreate, List.mem_cons] at ho ⊢
        rcases ho with rfl | ho
        · simp at hfo
        · exact fresh_demoteLiveHead s.objects bid k (s.nextId + 1) hmono1
            o ho fid hfo
    · simpa [stepOp, hex] using h
  | copyHead bid k dstBid dstKey =>
    by_cases hex : (bucketExists s bid && bucketExists s dstBid)
    · simp only [stepOp, hex, if_pos]
      cases hget : ovGet s bid k with
      | none => exact h
      | some v =>
        have hv : v ∈ s.objects := List.mem_of_find?_eq_some hget
        simp only [ovCopy]
        by_cases hvf : v.fileId = none
        · simpa [hvf] using h
        · simp only [hvf, if_neg, Bool.false_eq_true, not_false_eq_true]
          intro o ho fid hfo
          simp only [ovCreate, List.mem_cons] at ho ⊢
          rcases ho with rfl | ho
          · simp only at hfo
            have := h v hv fid hfo
            omega
          · exact fresh_demoteLiveHead s.objects dstBid dstKey (s.nextId + 1)
              hmono1 o ho fid hfo
    · simpa [stepOp, hex] using h

/-- Every non-copy step preserves the bucket-size invariant. -/
theorem sizeInv_step (s : DBState) (op : Op) (hFresh : FreshFiles s)
    (hInv : ∀ b2, bucketSize s b2 = bucketSum s b2) (hnc : op.isCopy = false) :
    ∀ b2, bucketSize (stepOp s op) b2 = bucketSum (stepOp s op) b2 := by
  intro b2
  cases op with
  | put bid k sz =>
    by_cases hex : bucketExists s bid
    · simp only [stepOp, if_pos hex]
      by_cases hb2 : b2 = bid
      · subst hb2
        have hsize : bucketSize (ovPut s b2 k sz) b2 = bucketSize s b2 + sz :=
          find_bump_self b2 sz s.buckets hex
        have hsum := bucketSum_ovPut_self s b2 k sz hFresh
        rw [hsize, hsum, hInv b2]
        omega
      · have hsize : bucketSize (ovPut s bid k sz) b2 = bucketSize s b2 :=
          find_bump_other bid sz b2 hb2 s.buckets
        have hsum := bucketSum_ovPut_other s bid k sz b2 hFresh
          (fun h => hb2 h.symm)
        rw [hsize, hsum, hInv b2]
    · simp only [stepOp, if_neg hex]
      exact hInv b2
  | del bid k =>
    by_cases hex : bucketExists s bid
    · simp only [stepOp, if_pos hex, ovDelete]
      cases hget : ovGet s bid k with
      | none => exact hInv b2
      | some v =>
        rw [bucketSize_ovCreate, bucketSum_ovCreate_none]
        exact hInv b2
    · simp only [stepOp, if_neg hex]
      exact hInv b2
  | copyHead bid k dstBid dstKey => simp [Op.isCopy] at hnc

/-- C2 amended: every attachment of a file to an object version
(`set_contents` with a stream or `set_location` with an external URI, both
collapsed into `ovPut`) increases the containing bucket's `size` by exactly
the attached file's size; and in every state reachable **without
metadata-only copies** (`ObjectVersion.copy` / `restore` /
`Bucket.snapshot`, i.e. `ObjectVersion.create` with `_file_id`),
`bucket.size` equals the sum of `v.file.size` over the bucket's object
versions with a non-null file, delete markers contributing nothing.  A copy
creates a version with a non-null file without touching `bucket.size`
(`bucketSize_ovCreate`), so the unconditional sum claim fails
(`claim_C2_counterexample`). -/
theorem claim_C2_amended_bucket_size :
    (∀ (s : DBState) (bid : Nat) (k : String) (sz : Nat),
      bucketExists s bid = true →
      bucketSize (ovPut s bid k sz) bid = bucketSize s bid + sz)
    ∧ ∀ (ops : List Op), (∀ op ∈ ops, op.isCopy = false) →
      ∀ bid, bucketSize (runOps ops) bid = bucketSum (runOps ops) bid := by
  constructor
  · intro s bid k sz hex
    exact find_bump_self bid sz s.buckets hex
  · have haux : ∀ (ops : List Op) (s : DBState), FreshFiles s →
        (∀ b2, bucketSize s b2 = bucketSum s b2) →
        (∀ op ∈ ops, op.isCopy = false) →
        ∀ b2, bucketSize (ops.foldl stepOp s) b2
          = bucketSum (ops.foldl stepOp s) b2 := by
      intro ops
      induction ops with
      | nil =>
        intro s _ h2 _
        exact h2
      | cons op rest ih =>
        intro s h1 h2 h3
        rw [List.foldl_cons]
        exact ih (stepOp s op) (freshFiles_step s op h1)
          (sizeInv_step s op h1 h2 (h3 op (List.mem_cons_self op rest)))
          (fun o ho => h3 o (List.mem_cons_of_mem op ho))
    intro ops hnc bid
    refine haux ops st0 ?_ ?_ hnc bid
    · intro o ho
      simp [st0] at ho
    · intro b2
      cases b2 <;> rfl

/-- C2 witness: uploading 5 bytes into the initial bucket grows its size
from 0 to 5, and after the copy-free trace `put; delete` the bucket's size
column equals the file-size sum. -/
theorem claim_C2_amended_bucket_size_witness :
    bucketSize (ovPut st0 0 "k" 5) 0 = bucketSize st0 0 + 5
    ∧ bucketSize (runOps [.put 0 "k" 5, .del 0 "k"]) 0
      = bucketSum (runOps [.put 0 "k" 5, .del 0 "k"]) 0 := by
  refine ⟨claim_C2_amended_bucket_size.1 st0 0 "k" 5 rfl,
    claim_C2_amended_bucket_size.2 [.put 0 "k" 5, .del 0 "k"] ?_ 0⟩
  intro op hop
  rcases List.mem_cons.mp hop with rfl | hop2
  · rfl
  · rcases List.mem_cons.mp hop2 with rfl | hop3
    · rfl
    · simp at hop3
